import Mathlib

/-!
Shallow embedding of the Bitbucket Server scaffolder actions
(`publish:bitbucketServer:push`, `bitbucketServer:branch:push`,
`bitbucketServer:repo:create`, `publish:bitbucketServer:repo:clone`,
`bitbucketServer:pullRequest:open`) and of their helper functions
(`getRepoInfo`, `getRepositoryRemoteUrl`, `createRepository`,
`performEnableLFS`, `getReviewers`, `createPullRequest`).

HTTP responses are modelled as records carrying the observed status,
status text, raw body text and the already-JSON-parsed typed body; thrown
JavaScript errors are modelled as structured values in `Except`.
-/

namespace BitbucketServer

/-- A named link as it appears in the `links.clone` and `links.self` lists
of the server JSON responses. -/
structure Link where
  name : String
  href : String
deriving DecidableEq, Repr

/-- An HTTP response with a typed, already-parsed JSON body: `status`,
`statusText` and `text` model `response.status`, `response.statusText` and
`await response.text()`; `body` models `await response.json()`. -/
structure HttpResponse (β : Type) where
  status : Nat
  statusText : String
  text : String
  body : β
deriving DecidableEq, Repr

/-- Structured view of the errors thrown by the actions; each constructor
carries the pieces interpolated into the corresponding message string in
the source. -/
inductive ActionError where
  | repoDetailsFailed (status : Nat) (statusText : String) (body : String)
  | selfLinkMissing
  | repoCreateFailed (status : Nat) (statusText : String) (body : String)
  | lfsEnableFailed (status : Nat) (statusText : String)
  | prCreateFailed (status : Nat) (statusText : String) (body : String)
  | prResponseMalformed (rawBody : String)
  | invalidLocation
  | missingAuthorization
deriving DecidableEq, Repr

/-- One step per link of the loop
`for (const link of links) if (link.name === "http") remoteUrl = link.href`:
the accumulator is the current value of `remoteUrl`, so a later match
overwrites an earlier one. -/
def scanCloneAux (acc : String) : List Link → String
  | [] => acc
  | l :: ls => scanCloneAux (if l.name = "http" then l.href else acc) ls

/-- The `remoteUrl` computation shared by all the actions: the loop over
`r.links.clone` starting from the empty string. -/
def cloneHttpHref (links : List Link) : String := scanCloneAux "" links

/-- When no link is named http, the scan leaves the accumulator unchanged. -/
theorem scanCloneAux_of_no_http (links : List Link) (acc : String)
    (h : ∀ l ∈ links, l.name ≠ "http") : scanCloneAux acc links = acc := by
  induction links generalizing acc with
  | nil => rfl
  | cons l ls ih =>
    have hl : l.name ≠ "http" := h l (List.mem_cons_self l ls)
    simp only [scanCloneAux, if_neg hl]
    exact ih acc fun x hx => h x (List.mem_cons_of_mem l hx)

/-- When exactly one link is named http, the scan returns its href. -/
theorem scanCloneAux_of_unique_http (links : List Link) (acc : String) (lk : Link)
    (h : links.filter (fun l => l.name == "http") = [lk]) :
    scanCloneAux acc links = lk.href := by
  induction links generalizing acc with
  | nil => simp at h
  | cons l ls ih =>
    by_cases hl : l.name = "http"
    · rw [List.filter_cons_of_pos (by simp [hl])] at h
      have hlk : l = lk := (List.cons_eq_cons.mp h).1
      have hrest : ls.filter (fun x => x.name == "http") = [] :=
        (List.cons_eq_cons.mp h).2
      subst hlk
      simp only [scanCloneAux, if_pos hl]
      refine scanCloneAux_of_no_http ls l.href fun x hx hx' => ?_
      have : x ∈ ls.filter (fun x => x.name == "http") :=
        List.mem_filter.mpr ⟨hx, by simp [hx']⟩
      simp [hrest] at this
    · rw [List.filter_cons_of_neg (by simp [hl])] at h
      simp only [scanCloneAux, if_neg hl]
      exact ih acc h

/-- Parsed JSON body of `GET /projects/p/repos/r` (and of a 201 response of
`POST /projects/p/repos`): the `id` field, the `links.clone` list and the
`links.self` list. -/
structure RepoDetails where
  id : Nat
  cloneLinks : List Link
  selfLinks : List Link
deriving DecidableEq, Repr

/-- Result record of `getRepoInfo` and `createRepository`. -/
structure RepoInfo where
  remoteUrl : String
  repoContentsUrl : String
  repoId : Nat
deriving DecidableEq, Repr

/-- `getRepoInfo` from `bitbucketServerUtil`: a non-200 status throws with
the status, status text and body text; on 200 it reads `repoId` from
`r.id`, `remoteUrl` from the clone-link scan and `repoContentsUrl` from
`r.links.self[0].href`; an empty self list makes that last field access
throw a TypeError, which this function does not catch. -/
def getRepoInfo (resp : HttpResponse RepoDetails) : Except ActionError RepoInfo :=
  if resp.status ≠ 200 then
    .error (.repoDetailsFailed resp.status resp.statusText resp.text)
  else
    match resp.body.selfLinks.head? with
    | none => .error .selfLinkMissing
    | some selfLink =>
        .ok { remoteUrl := cloneHttpHref resp.body.cloneLinks
              repoContentsUrl := selfLink.href
              repoId := resp.body.id }

/-- `getRepositoryRemoteUrl` from the push action: like `getRepoInfo` but
it returns only `remoteUrl` and never touches `links.self` or `id`. -/
def getRepositoryRemoteUrl (resp : HttpResponse RepoDetails) :
    Except ActionError String :=
  if resp.status ≠ 200 then
    .error (.repoDetailsFailed resp.status resp.statusText resp.text)
  else
    .ok (cloneHttpHref resp.body.cloneLinks)

/-- `createRepository`: a 409 status logs the conflict and delegates to
`getRepoInfo` on the lookup response; any other status that is not 201
throws with the status, status text and body text; a 201 body is parsed
exactly like a lookup body. -/
def createRepository (createResp lookupResp : HttpResponse RepoDetails) :
    Except ActionError RepoInfo :=
  if createResp.status = 409 then
    getRepoInfo lookupResp
  else if createResp.status ≠ 201 then
    .error (.repoCreateFailed createResp.status createResp.statusText createResp.text)
  else
    match createResp.body.selfLinks.head? with
    | none => .error .selfLinkMissing
    | some selfLink =>
        .ok { remoteUrl := cloneHttpHref createResp.body.cloneLinks
              repoContentsUrl := selfLink.href
              repoId := createResp.body.id }

/-- Status line of the LFS PUT response. -/
structure LfsResponse where
  status : Nat
  statusText : String
deriving DecidableEq, Repr

/-- The `ok` field of a node-fetch response: status in the 2xx range. -/
def lfsOk (resp : LfsResponse) : Bool :=
  200 ≤ resp.status && resp.status < 300

/-- `performEnableLFS`: throws with the status and status text unless the
PUT response is ok. -/
def performEnableLFS (resp : LfsResponse) : Except ActionError Unit :=
  if lfsOk resp then .ok () else .error (.lfsEnableFailed resp.status resp.statusText)

/-- A reviewer entry as pushed into the pull-request payload; in the source
it is a record with a nested user record whose only read field is `name`. -/
structure Reviewer where
  name : String
deriving DecidableEq, Repr

/-- A required reviewer as returned by the default-reviewers endpoint; only
its `name` field is read. -/
structure RequiredReviewer where
  name : String
deriving DecidableEq, Repr

/-- `getReviewers`: the first loop pushes every required reviewer while
collecting their names in `requiredUsers`; the second loop appends each
requested user whose name is not contained in `requiredUsers`. -/
def getReviewers (users : List String) (requiredReviewers : List RequiredReviewer) :
    List Reviewer :=
  let requiredUsers : List String := requiredReviewers.map RequiredReviewer.name
  let reviewers : List Reviewer := requiredReviewers.map fun r => { name := r.name }
  reviewers ++
    (users.filter fun u => !(requiredUsers.contains u)).map fun u => { name := u }

/-- The names of the merged list are the required names followed by the
requested names not occurring among them. -/
theorem getReviewers_names (users : List String) (req : List RequiredReviewer) :
    (getReviewers users req).map Reviewer.name
      = req.map RequiredReviewer.name
        ++ users.filter fun u => decide (u ∉ req.map RequiredReviewer.name) := by
  unfold getReviewers
  simp only [List.map_append, List.map_map]
  rw [show (Reviewer.name ∘ fun r : RequiredReviewer => ({ name := r.name } : Reviewer))
        = RequiredReviewer.name from funext fun _ => rfl]
  rw [show (Reviewer.name ∘ fun u : String => ({ name := u } : Reviewer)) = id from
        funext fun _ => rfl, List.map_id]
  congr 1
  apply List.filter_congr
  intro u _
  by_cases h : u ∈ req.map RequiredReviewer.name
  · simp [h]
  · simp [h]

/-- Truthiness of a JavaScript array value: any object, in particular any
array, is truthy regardless of its contents. -/
def jsArrayTruthy (_ : List String) : Bool := true

/-- Lines 103 to 112 of the pull-request source: `reviewers` was
destructured with default `[]`, then `if (reviewers)` selects the merge;
the else branch would pass the raw required reviewers through, here viewed
by their names. -/
def reviewersObject (reviewers : Option (List String))
    (requiredReviewers : List RequiredReviewer) : List Reviewer :=
  let rs := reviewers.getD []
  if jsArrayTruthy rs then getReviewers rs requiredReviewers
  else requiredReviewers.map fun r => { name := r.name }

/-- Parsed JSON body of a pull-request creation response: the
`fromRef.repository.links.clone` list and the `links.self` list, each
`none` when the field is absent from the body, together with the
serialization of the whole body as produced by `JSON.stringify(r)`. -/
structure PrBody where
  fromRefCloneLinks : Option (List Link)
  selfLinks : Option (List Link)
  raw : String
deriving DecidableEq, Repr

/-- Result of `createPullRequest`. -/
structure PrResult where
  remoteUrl : String
  prUrl : String
deriving DecidableEq, Repr

/-- Lines 156 to 178 of `createPullRequest`: a non-201 status throws with
the status, status text and body text; on 201 the try block scans
`r.fromRef.repository.links.clone` and reads `r.links.self[0].href`, and
any access to a missing field throws a TypeError that the catch block wraps
together with `JSON.stringify(r)`. -/
def parsePullRequestResponse (resp : HttpResponse PrBody) :
    Except ActionError PrResult :=
  if resp.status ≠ 201 then
    .error (.prCreateFailed resp.status resp.statusText resp.text)
  else
    match resp.body.fromRefCloneLinks with
    | none => .error (.prResponseMalformed resp.body.raw)
    | some cloneLinks =>
      match resp.body.selfLinks with
      | none => .error (.prResponseMalformed resp.body.raw)
      | some selfLinks =>
        match selfLinks.head? with
        | none => .error (.prResponseMalformed resp.body.raw)
        | some selfLink =>
            .ok { remoteUrl := cloneHttpHref cloneLinks, prUrl := selfLink.href }

/-- Tagged authorization value, per the sum-type representation the spec
prescribes for credentials. -/
inductive AuthHeader where
  | bearer (token : String)
  | basic (username : String) (password : String)
deriving DecidableEq, Repr

/-- The per-host integration configuration fields read by the actions. -/
structure IntegrationConfig where
  token : Option String
  username : Option String
  password : Option String
deriving DecidableEq, Repr

/-- Modelled from the spec: `getBitbucketServerRequestOptions` lives in the
integration package, outside these sources. Per the spec it produces
token-based authorization when a token is available, falls back to the
configured username and password pair, and yields no authorization value
when neither is resolvable. -/
def getBitbucketServerRequestOptions (cfg : IntegrationConfig) : Option AuthHeader :=
  match cfg.token with
  | some t => some (.bearer t)
  | none =>
    match cfg.username, cfg.password with
    | some u, some p => some (.basic u p)
    | _, _ => none

/-- The token resolution `ctx.input.token ?? integrationConfig.config.token`:
the caller-supplied override wins when present. -/
def resolveToken (inputToken : Option String) (cfg : IntegrationConfig) :
    Option String :=
  inputToken.orElse fun _ => cfg.token

/-- Truthiness of the parsed `project` string in the `if (!project)` check:
`undefined` and the empty string are falsy. -/
def falsyProject : Option String → Bool
  | none => true
  | some s => s == ""

/-- The arguments a handler passes to `initRepoAndPush`. -/
structure PushCall where
  remoteUrl : String
  defaultBranch : String
  commitMessage : Option String
deriving DecidableEq, Repr

/-- The inputs of the `publish:bitbucketServer:push` action read by its
handler, with the parsed project of `parseRepoUrl` in place of `repoUrl`. -/
structure PushInput where
  project : Option String
  inputToken : Option String
  targetBranch : Option String
  gitCommitMessage : Option String
deriving DecidableEq, Repr

/-- Handler of `publish:bitbucketServer:push` as a function of its inputs,
the per-host configuration, the configured default commit message and the
lookup response; the second component counts the outbound HTTP requests
issued. The match of the host to an integration configuration is assumed to
have succeeded. -/
def pushHandler (input : PushInput) (cfg : IntegrationConfig)
    (defaultCommitMessage : Option String) (repoResp : HttpResponse RepoDetails) :
    Except ActionError PushCall × Nat :=
  let targetBranch := input.targetBranch.getD "backstage/update"
  let gitCommitMessage := input.gitCommitMessage.getD "commit by backstage"
  if falsyProject input.project then (.error .invalidLocation, 0)
  else
    let token := resolveToken input.inputToken cfg
    match getBitbucketServerRequestOptions { cfg with token := token } with
    | none => (.error .missingAuthorization, 0)
    | some _ =>
      match getRepositoryRemoteUrl repoResp with
      | .error e => (.error e, 1)
      | .ok remoteUrl =>
          (.ok { remoteUrl := remoteUrl
                 defaultBranch := targetBranch
                 commitMessage :=
                   if gitCommitMessage == "" then defaultCommitMessage
                   else some gitCommitMessage }, 1)

/-- The inputs of the `bitbucketServer:branch:push` action read by its
handler; `branch` is a required input. -/
structure BranchPushInput where
  project : Option String
  inputToken : Option String
  branch : String
  gitCommitMessage : Option String
deriving DecidableEq, Repr

/-- Handler of `bitbucketServer:branch:push`: like the push handler but the
pushed branch is the required `branch` input, the commit message default is
"init commit by backstage" and the lookup goes through `getRepoInfo`. -/
def branchPushHandler (input : BranchPushInput) (cfg : IntegrationConfig)
    (defaultCommitMessage : Option String) (repoResp : HttpResponse RepoDetails) :
    Except ActionError PushCall × Nat :=
  let gitCommitMessage := input.gitCommitMessage.getD "init commit by backstage"
  if falsyProject input.project then (.error .invalidLocation, 0)
  else
    let token := resolveToken input.inputToken cfg
    match getBitbucketServerRequestOptions { cfg with token := token } with
    | none => (.error .missingAuthorization, 0)
    | some _ =>
      match getRepoInfo repoResp with
      | .error e => (.error e, 1)
      | .ok info =>
          (.ok { remoteUrl := info.remoteUrl
                 defaultBranch := input.branch
                 commitMessage :=
                   if gitCommitMessage == "" then defaultCommitMessage
                   else some gitCommitMessage }, 1)

/-- The inputs of the `bitbucketServer:repo:create` action read by its
handler; `enableLFS` is destructured with default `false`. -/
structure RepoCreateInput where
  project : Option String
  inputToken : Option String
  enableLFS : Option Bool
deriving DecidableEq, Repr

/-- Handler of `bitbucketServer:repo:create`: location and authorization
checks, `createRepository`, then the LFS PUT when the flag is set. The
second component counts all outbound HTTP requests (the create POST, the
fallback lookup GET and the LFS PUT); the third counts the LFS PUTs among
them. -/
def repoCreateHandler (input : RepoCreateInput) (cfg : IntegrationConfig)
    (createResp lookupResp : HttpResponse RepoDetails) (lfsResp : LfsResponse) :
    Except ActionError RepoInfo × Nat × Nat :=
  let enableLFS := input.enableLFS.getD false
  if falsyProject input.project then (.error .invalidLocation, 0, 0)
  else
    let token := resolveToken input.inputToken cfg
    match getBitbucketServerRequestOptions { cfg with token := token } with
    | none => (.error .missingAuthorization, 0, 0)
    | some _ =>
      let createCalls : Nat := if createResp.status = 409 then 2 else 1
      match createRepository createResp lookupResp with
      | .error e => (.error e, createCalls, 0)
      | .ok info =>
        if enableLFS then
          match performEnableLFS lfsResp with
          | .error e => (.error e, createCalls + 1, 1)
          | .ok _ => (.ok info, createCalls + 1, 1)
        else (.ok info, createCalls, 0)

/-! Sample values for concrete evaluations. -/

/-- A clone link named http. -/
def sampleCloneLink : Link :=
  { name := "http", href := "https://bb.example.com/scm/proj/repo.git" }

/-- A self link. -/
def sampleSelfLink : Link :=
  { name := "self", href := "https://bb.example.com/projects/PROJ/repos/repo" }

/-- A repository detail body with id 42, one clone link and one self link. -/
def sampleDetails : RepoDetails :=
  { id := 42, cloneLinks := [sampleCloneLink], selfLinks := [sampleSelfLink] }

/-- A successful lookup response. -/
def sampleLookupOk : HttpResponse RepoDetails :=
  { status := 200, statusText := "OK", text := "", body := sampleDetails }

/-- A failed lookup response. -/
def sampleResp404 : HttpResponse RepoDetails :=
  { status := 404, statusText := "Not Found", text := "nf", body := sampleDetails }

/-- A conflicting create response. -/
def sampleCreate409 : HttpResponse RepoDetails :=
  { status := 409, statusText := "Conflict", text := "exists", body := sampleDetails }

/-- A failed LFS PUT response. -/
def sampleLfs500 : LfsResponse := { status := 500, statusText := "Server Error" }

/-- A configuration with a token only. -/
def cfgToken : IntegrationConfig :=
  { token := some "tok", username := none, password := none }

/-- A configuration with no credentials at all. -/
def cfgEmpty : IntegrationConfig :=
  { token := none, username := none, password := none }

/-- A push input with a project and all optional fields absent. -/
def samplePushInput : PushInput :=
  { project := some "PROJ", inputToken := none, targetBranch := none,
    gitCommitMessage := none }

/-- A push input with a missing project. -/
def samplePushInputNoProject : PushInput :=
  { project := none, inputToken := none, targetBranch := none,
    gitCommitMessage := none }

/-- A branch-push input with a project and no commit message. -/
def sampleBranchInput : BranchPushInput :=
  { project := some "PROJ", inputToken := none, branch := "b",
    gitCommitMessage := none }

/-- A branch-push input with a missing project. -/
def sampleBranchInputNoProject : BranchPushInput :=
  { project := none, inputToken := none, branch := "b", gitCommitMessage := none }

/-- A repo-create input with the LFS flag set. -/
def sampleCreateInputLfs : RepoCreateInput :=
  { project := some "PROJ", inputToken := none, enableLFS := some true }

/-- A repo-create input with the LFS flag absent. -/
def sampleCreateInputNoLfs : RepoCreateInput :=
  { project := some "PROJ", inputToken := none, enableLFS := none }

/-- A repo-create input with a missing project. -/
def sampleCreateInputNoProject : RepoCreateInput :=
  { project := none, inputToken := none, enableLFS := some true }

/-- The repository record of the sample lookup. -/
def sampleRepoInfo : RepoInfo :=
  { remoteUrl := sampleCloneLink.href, repoContentsUrl := sampleSelfLink.href,
    repoId := 42 }

/-- C1: the merged reviewer list is the required reviewers first, in server
order, followed by the requested usernames whose name does not appear among
the required reviewer names, in caller order; on required alice, bob and
requested bob, carol the result is alice, bob, carol of length 3. -/
theorem C1_getReviewers_order (users : List String) (req : List RequiredReviewer) :
    (getReviewers users req).map Reviewer.name
        = req.map RequiredReviewer.name
          ++ users.filter (fun u => decide (u ∉ req.map RequiredReviewer.name))
      ∧ getReviewers ["bob", "carol"] [⟨"alice"⟩, ⟨"bob"⟩]
          = [⟨"alice"⟩, ⟨"bob"⟩, ⟨"carol"⟩]
      ∧ (getReviewers ["bob", "carol"] [⟨"alice"⟩, ⟨"bob"⟩]).length = 3 :=
  ⟨getReviewers_names users req, by decide, by decide⟩

/-- C2 counterexample: with no required reviewers and the username carol
requested twice, the merge returns two entries with equal username, so the
merged list is not duplicate-free when the caller-requested list itself
repeats a username. -/
theorem C2_counterexample_duplicate_requested :
    getReviewers ["carol", "carol"] [] = [⟨"carol"⟩, ⟨"carol"⟩]
      ∧ ¬ ((getReviewers ["carol", "carol"] []).Pairwise
            fun a b => a.name ≠ b.name) := by
  constructor
  · decide
  · intro h
    rw [show getReviewers ["carol", "carol"] [] = [⟨"carol"⟩, ⟨"carol"⟩] from by decide]
      at h
    exact (List.pairwise_cons.mp h).1 ⟨"carol"⟩ (List.mem_cons_self _ _) rfl

/-- C2 amended: when the required reviewer names are pairwise distinct and
the requested usernames are pairwise distinct, the merged list contains no
two entries with equal username; duplicates inside the requested list (or
inside the required list) are not removed by the merge. -/
theorem C2_getReviewers_nodup (users : List String) (req : List RequiredReviewer)
    (hreq : (req.map RequiredReviewer.name).Nodup) (husers : users.Nodup) :
    ((getReviewers users req).map Reviewer.name).Nodup := by
  rw [getReviewers_names]
  refine List.Nodup.append hreq (husers.filter _) ?_
  intro a ha hafilter
  have h2 := (List.mem_filter.mp hafilter).2
  simp only [decide_eq_true_eq] at h2
  exact h2 ha

/-- Witness for C2: distinct required names alice, bob and distinct
requested names bob, carol give a duplicate-free merged list. -/
theorem C2_getReviewers_nodup_witness :
    ((getReviewers ["bob", "carol"] [⟨"alice"⟩, ⟨"bob"⟩]).map Reviewer.name).Nodup :=
  C2_getReviewers_nodup ["bob", "carol"] [⟨"alice"⟩, ⟨"bob"⟩] (by decide) (by decide)

/-- C3: a 409 status on the create POST makes createRepository return
exactly the result of the lookup, with the same remoteUrl, repoContentsUrl
and repository identifier as getRepoInfo; any status other than 201 and 409
fails with the status, status text and response body. -/
theorem C3_createRepository_conflict_reuse
    (createResp lookupResp : HttpResponse RepoDetails) :
    (createResp.status = 409 →
        createRepository createResp lookupResp = getRepoInfo lookupResp)
      ∧ (createResp.status ≠ 201 → createResp.status ≠ 409 →
          createRepository createResp lookupResp
            = .error (.repoCreateFailed createResp.status createResp.statusText
                createResp.text)) := by
  constructor
  · intro h
    simp [createRepository, h]
  · intro h201 h409
    simp [createRepository, h409, h201]

/-- Witness for C3: a 409 create response against a 200 lookup reuses the
lookup record, and a 500 create response fails with status 500. -/
theorem C3_createRepository_witness :
    createRepository
        { status := 409, statusText := "Conflict", text := "exists",
          body := sampleDetails }
        sampleLookupOk
      = getRepoInfo sampleLookupOk
    ∧ createRepository
        { status := 500, statusText := "Server Error", text := "boom",
          body := sampleDetails }
        sampleLookupOk
      = .error (.repoCreateFailed 500 "Server Error" "boom") :=
  ⟨(C3_createRepository_conflict_reuse
      { status := 409, statusText := "Conflict", text := "exists",
        body := sampleDetails }
      sampleLookupOk).1 rfl,
   (C3_createRepository_conflict_reuse
      { status := 500, statusText := "Server Error", text := "boom",
        body := sampleDetails }
      sampleLookupOk).2 (by decide) (by decide)⟩

/-- C4: pull-request creation fails on a non-201 status with the status,
status text and response body; on a 201 response whose body lacks the
fromRef repository clone links or the links.self list (absent or empty),
it fails with the serialized raw body instead of returning a partial
result. -/
theorem C4_createPullRequest_errors (resp : HttpResponse PrBody) :
    (resp.status ≠ 201 →
        parsePullRequestResponse resp
          = .error (.prCreateFailed resp.status resp.statusText resp.text))
      ∧ (resp.status = 201 →
          (resp.body.fromRefCloneLinks = none ∨ resp.body.selfLinks = none
              ∨ resp.body.selfLinks = some []) →
          parsePullRequestResponse resp
            = .error (.prResponseMalformed resp.body.raw)) := by
  constructor
  · intro h
    simp [parsePullRequestResponse, h]
  · intro h201 hmal
    rcases hmal with h | h | h
    · simp [parsePullRequestResponse, h201, h]
    · cases hfc : resp.body.fromRefCloneLinks <;>
        simp [parsePullRequestResponse, h201, h, hfc]
    · cases hfc : resp.body.fromRefCloneLinks <;>
        simp [parsePullRequestResponse, h201, h, hfc]

/-- Witness for C4: a 404 response fails with status 404, and a 201
response with no clone-link field fails with the raw body. -/
theorem C4_createPullRequest_errors_witness :
    parsePullRequestResponse
        { status := 404, statusText := "Not Found", text := "nf",
          body := { fromRefCloneLinks := none, selfLinks := none, raw := "r0" } }
      = .error (.prCreateFailed 404 "Not Found" "nf")
    ∧ parsePullRequestResponse
        { status := 201, statusText := "Created", text := "",
          body := { fromRefCloneLinks := none, selfLinks := some [sampleSelfLink],
                    raw := "r1" } }
      = .error (.prResponseMalformed "r1") :=
  ⟨(C4_createPullRequest_errors
      { status := 404, statusText := "Not Found", text := "nf",
        body := { fromRefCloneLinks := none, selfLinks := none, raw := "r0" } }).1
      (by decide),
   (C4_createPullRequest_errors
      { status := 201, statusText := "Created", text := "",
        body := { fromRefCloneLinks := none, selfLinks := some [sampleSelfLink],
                  raw := "r1" } }).2 rfl (Or.inl rfl)⟩

/-- C5: with the LFS flag set, a non-2xx response to the LFS PUT fails the
whole operation with the LFS status and status text even though repository
creation already succeeded, and no HTTP request beyond the LFS PUT (in
particular no rollback of the created repository) is issued; with the flag
unset, no LFS call is made at all. -/
theorem C5_enableLFS_failure (input : RepoCreateInput) (cfg : IntegrationConfig)
    (createResp lookupResp : HttpResponse RepoDetails) (lfsResp : LfsResponse)
    (auth : AuthHeader) (info : RepoInfo)
    (hp : falsyProject input.project = false)
    (ha : getBitbucketServerRequestOptions
        { cfg with token := resolveToken input.inputToken cfg } = some auth)
    (hc : createRepository createResp lookupResp = .ok info) :
    (input.enableLFS.getD false = true → lfsOk lfsResp = false →
        repoCreateHandler input cfg createResp lookupResp lfsResp
          = (.error (.lfsEnableFailed lfsResp.status lfsResp.statusText),
             (if createResp.status = 409 then 2 else 1) + 1, 1))
      ∧ (input.enableLFS.getD false = false →
          (repoCreateHandler input cfg createResp lookupResp lfsResp).2.2 = 0) := by
  constructor
  · intro he hf
    simp [repoCreateHandler, hp, ha, hc, he, performEnableLFS, hf]
  · intro he
    simp [repoCreateHandler, hp, ha, hc, he]

/-- Witness for C5: a 409 create response whose fallback lookup succeeds,
followed by a 500 LFS response under an enabled flag, fails the operation
with status 500 after three HTTP requests; the same invocation with the
flag absent issues no LFS call. -/
theorem C5_enableLFS_failure_witness :
    repoCreateHandler sampleCreateInputLfs cfgToken sampleCreate409 sampleLookupOk
        sampleLfs500
      = (.error (.lfsEnableFailed 500 "Server Error"),
         (if sampleCreate409.status = 409 then 2 else 1) + 1, 1)
    ∧ (repoCreateHandler sampleCreateInputNoLfs cfgToken sampleCreate409
        sampleLookupOk sampleLfs500).2.2 = 0 :=
  ⟨(C5_enableLFS_failure sampleCreateInputLfs cfgToken sampleCreate409
      sampleLookupOk sampleLfs500 (.bearer "tok") sampleRepoInfo
      (by decide) rfl rfl).1 rfl rfl,
   (C5_enableLFS_failure sampleCreateInputNoLfs cfgToken sampleCreate409
      sampleLookupOk sampleLfs500 (.bearer "tok") sampleRepoInfo
      (by decide) rfl rfl).2 rfl⟩

/-- C6: repository lookup fails on any non-200 status with the status,
status text and response body; on 200 the repoId is the body id field, the
repoContentsUrl is the first self-link href, and the remoteUrl is the empty
string when no clone link is named http and the href of the unique clone
link named http when there is exactly one; getRepositoryRemoteUrl computes
the same remoteUrl. -/
theorem C6_getRepoInfo_contract (resp : HttpResponse RepoDetails) :
    (resp.status ≠ 200 →
        getRepoInfo resp
            = .error (.repoDetailsFailed resp.status resp.statusText resp.text)
          ∧ getRepositoryRemoteUrl resp
            = .error (.repoDetailsFailed resp.status resp.statusText resp.text))
      ∧ (resp.status = 200 →
          ∀ selfLink rest, resp.body.selfLinks = selfLink :: rest →
            getRepoInfo resp
              = .ok { remoteUrl := cloneHttpHref resp.body.cloneLinks,
                      repoContentsUrl := selfLink.href,
                      repoId := resp.body.id })
      ∧ (resp.status = 200 →
          getRepositoryRemoteUrl resp = .ok (cloneHttpHref resp.body.cloneLinks))
      ∧ ((∀ l ∈ resp.body.cloneLinks, l.name ≠ "http") →
          cloneHttpHref resp.body.cloneLinks = "")
      ∧ (∀ lk, resp.body.cloneLinks.filter (fun l => l.name == "http") = [lk] →
          cloneHttpHref resp.body.cloneLinks = lk.href) := by
  refine ⟨fun h => ⟨?_, ?_⟩, fun h selfLink rest hself => ?_, fun h => ?_,
      fun h => ?_, fun lk h => ?_⟩
  · simp [getRepoInfo, h]
  · simp [getRepositoryRemoteUrl, h]
  · simp [getRepoInfo, h, hself]
  · simp [getRepositoryRemoteUrl, h]
  · unfold cloneHttpHref
    exact scanCloneAux_of_no_http _ "" h
  · unfold cloneHttpHref
    exact scanCloneAux_of_unique_http _ "" lk h

/-- Witness for C6: a 404 lookup fails with status 404; the sample 200
lookup returns id 42, the self-link href and the single http clone href. -/
theorem C6_getRepoInfo_contract_witness :
    getRepoInfo sampleResp404 = .error (.repoDetailsFailed 404 "Not Found" "nf")
    ∧ getRepoInfo sampleLookupOk
      = .ok { remoteUrl := cloneHttpHref sampleDetails.cloneLinks,
              repoContentsUrl := sampleSelfLink.href, repoId := 42 }
    ∧ cloneHttpHref sampleDetails.cloneLinks = sampleCloneLink.href :=
  ⟨((C6_getRepoInfo_contract sampleResp404).1 (by decide)).1,
   (C6_getRepoInfo_contract sampleLookupOk).2.1 rfl sampleSelfLink [] rfl,
   (C6_getRepoInfo_contract sampleLookupOk).2.2.2.2 sampleCloneLink (by decide)⟩

/-- C7: the resolved token is the caller override when present and the
configured token otherwise; a resolved token selects bearer authorization,
and otherwise the configured username and password pair is used; when
neither resolves, the push handler fails before issuing any HTTP request. -/
theorem C7_auth_resolution (inputToken : Option String) (cfg : IntegrationConfig) :
    (∀ t, inputToken = some t → resolveToken inputToken cfg = some t)
      ∧ (inputToken = none → resolveToken inputToken cfg = cfg.token)
      ∧ (∀ t, resolveToken inputToken cfg = some t →
          getBitbucketServerRequestOptions
              { cfg with token := resolveToken inputToken cfg }
            = some (.bearer t))
      ∧ (resolveToken inputToken cfg = none →
          ∀ u p, cfg.username = some u → cfg.password = some p →
            getBitbucketServerRequestOptions
                { cfg with token := resolveToken inputToken cfg }
              = some (.basic u p))
      ∧ (resolveToken inputToken cfg = none →
          (cfg.username = none ∨ cfg.password = none) →
          ∀ (input : PushInput) (dcm : Option String)
            (repoResp : HttpResponse RepoDetails),
            input.inputToken = inputToken → falsyProject input.project = false →
            pushHandler input cfg dcm repoResp
              = (.error .missingAuthorization, 0)) := by
  refine ⟨fun t h => ?_, fun h => ?_, fun t h => ?_, fun h u p hu hp => ?_,
      fun h hnup input dcm repoResp hin hproj => ?_⟩
  · simp [resolveToken, h, Option.orElse]
  · simp [resolveToken, h, Option.orElse]
  · simp [getBitbucketServerRequestOptions, h]
  · simp [getBitbucketServerRequestOptions, h, hu, hp]
  · have hopts : getBitbucketServerRequestOptions
        { cfg with token := resolveToken input.inputToken cfg } = none := by
      rw [hin]
      rcases hnup with hu | hpw
      · simp [getBitbucketServerRequestOptions, h, hu]
      · cases hcu : cfg.username <;>
          simp [getBitbucketServerRequestOptions, h, hpw, hcu]
    simp [pushHandler, hproj, hopts]

/-- Witness for C7: with no override token and a configuration holding
neither token nor credentials, the resolved token is the configured token
and the push handler fails with no HTTP request issued. -/
theorem C7_auth_resolution_witness :
    resolveToken none cfgEmpty = cfgEmpty.token
    ∧ pushHandler samplePushInput cfgEmpty none sampleLookupOk
      = (.error .missingAuthorization, 0) :=
  ⟨(C7_auth_resolution none cfgEmpty).2.1 rfl,
   (C7_auth_resolution none cfgEmpty).2.2.2.2 rfl (Or.inl rfl)
      samplePushInput none sampleLookupOk rfl (by decide)⟩

/-- C8: when the parsed project of the repository location is falsy, each
handler fails with the invalid-location InputError and issues zero outbound
HTTP requests. -/
theorem C8_invalid_location_no_network (project : Option String)
    (hp : falsyProject project = true) :
    (∀ (input : PushInput), input.project = project →
        ∀ cfg dcm repoResp,
          pushHandler input cfg dcm repoResp = (.error .invalidLocation, 0))
      ∧ (∀ (input : BranchPushInput), input.project = project →
          ∀ cfg dcm repoResp,
            branchPushHandler input cfg dcm repoResp = (.error .invalidLocation, 0))
      ∧ (∀ (input : RepoCreateInput), input.project = project →
          ∀ cfg createResp lookupResp lfsResp,
            repoCreateHandler input cfg createResp lookupResp lfsResp
              = (.error .invalidLocation, 0, 0)) := by
  refine ⟨fun input hin cfg dcm repoResp => ?_,
      fun input hin cfg dcm repoResp => ?_,
      fun input hin cfg createResp lookupResp lfsResp => ?_⟩
  · simp [pushHandler, hin, hp]
  · simp [branchPushHandler, hin, hp]
  · simp [repoCreateHandler, hin, hp]

/-- Witness for C8: with a missing project, all three handlers fail with
the invalid-location error and zero HTTP requests. -/
theorem C8_invalid_location_no_network_witness :
    pushHandler samplePushInputNoProject cfgToken none sampleLookupOk
      = (.error .invalidLocation, 0)
    ∧ branchPushHandler sampleBranchInputNoProject cfgToken none sampleLookupOk
      = (.error .invalidLocation, 0)
    ∧ repoCreateHandler sampleCreateInputNoProject cfgToken sampleCreate409
        sampleLookupOk sampleLfs500
      = (.error .invalidLocation, 0, 0) :=
  ⟨(C8_invalid_location_no_network none rfl).1 samplePushInputNoProject rfl
      cfgToken none sampleLookupOk,
   (C8_invalid_location_no_network none rfl).2.1 sampleBranchInputNoProject rfl
      cfgToken none sampleLookupOk,
   (C8_invalid_location_no_network none rfl).2.2 sampleCreateInputNoProject rfl
      cfgToken sampleCreate409 sampleLookupOk sampleLfs500⟩

/-- C9: the reviewers input defaults to the empty list and the branch that
would bypass the merge is unreachable, because a JavaScript array is always
truthy: the submitted reviewer list is always the merge applied to the
fetched required reviewers, so every required reviewer appears in the
payload. -/
theorem C9_reviewers_always_merged (reviewers : Option (List String))
    (req : List RequiredReviewer) :
    reviewersObject reviewers req = getReviewers (reviewers.getD []) req
      ∧ ∀ r ∈ req, ({ name := r.name } : Reviewer) ∈ reviewersObject reviewers req := by
  constructor
  · simp [reviewersObject, jsArrayTruthy]
  · intro r hr
    simp only [reviewersObject, jsArrayTruthy, if_true]
    unfold getReviewers
    exact List.mem_append_left _ (List.mem_map_of_mem _ hr)

/-- Witness for C9: with requested carol and required alice, the payload is
the merged list and contains alice. -/
theorem C9_reviewers_always_merged_witness :
    reviewersObject (some ["carol"]) [⟨"alice"⟩]
        = getReviewers ((some ["carol"]).getD []) [⟨"alice"⟩]
      ∧ ({ name := "alice" } : Reviewer) ∈ reviewersObject (some ["carol"]) [⟨"alice"⟩] :=
  ⟨(C9_reviewers_always_merged (some ["carol"]) [⟨"alice"⟩]).1,
   (C9_reviewers_always_merged (some ["carol"]) [⟨"alice"⟩]).2 ⟨"alice"⟩
      (List.mem_singleton.mpr rfl)⟩

/-- C10: with targetBranch absent the push handler passes the branch
"backstage/update" (and not "master", contrary to the schema description)
to the git push, and with gitCommitMessage absent it passes the commit
message "commit by backstage"; the branch-push handler instead defaults the
commit message to "init commit by backstage". -/
theorem C10_handler_defaults (input : PushInput) (binput : BranchPushInput)
    (cfg : IntegrationConfig) (dcm : Option String)
    (repoResp : HttpResponse RepoDetails)
    (auth auth2 : AuthHeader) (remoteUrl : String) (info : RepoInfo)
    (h1 : input.targetBranch = none) (h2 : input.gitCommitMessage = none)
    (h3 : binput.gitCommitMessage = none)
    (hp : falsyProject input.project = false)
    (hbp : falsyProject binput.project = false)
    (ha : getBitbucketServerRequestOptions
        { cfg with token := resolveToken input.inputToken cfg } = some auth)
    (hab : getBitbucketServerRequestOptions
        { cfg with token := resolveToken binput.inputToken cfg } = some auth2)
    (hrem : getRepositoryRemoteUrl repoResp = .ok remoteUrl)
    (hinfo : getRepoInfo repoResp = .ok info) :
    pushHandler input cfg dcm repoResp
        = (.ok { remoteUrl := remoteUrl, defaultBranch := "backstage/update",
                 commitMessage := some "commit by backstage" }, 1)
      ∧ ("backstage/update" : String) ≠ "master"
      ∧ branchPushHandler binput cfg dcm repoResp
        = (.ok { remoteUrl := info.remoteUrl, defaultBranch := binput.branch,
                 commitMessage := some "init commit by backstage" }, 1) := by
  have hne1 : (("commit by backstage" : String) == "") = false := by decide
  have hne2 : (("init commit by backstage" : String) == "") = false := by decide
  refine ⟨?_, by decide, ?_⟩
  · simp [pushHandler, h1, h2, hp, ha, hrem, hne1]
  · simp [branchPushHandler, h3, hbp, hab, hinfo, hne2]

/-- Witness for C10: a concrete invocation with absent targetBranch and
absent commit messages against the sample lookup pushes to the branch
"backstage/update" with message "commit by backstage", and the branch-push
handler uses "init commit by backstage". -/
theorem C10_handler_defaults_witness :
    pushHandler samplePushInput cfgToken none sampleLookupOk
        = (.ok { remoteUrl := sampleCloneLink.href,
                 defaultBranch := "backstage/update",
                 commitMessage := some "commit by backstage" }, 1)
      ∧ ("backstage/update" : String) ≠ "master"
      ∧ branchPushHandler sampleBranchInput cfgToken none sampleLookupOk
        = (.ok { remoteUrl := sampleRepoInfo.remoteUrl,
                 defaultBranch := sampleBranchInput.branch,
                 commitMessage := some "init commit by backstage" }, 1) :=
  C10_handler_defaults samplePushInput sampleBranchInput cfgToken none
    sampleLookupOk (.bearer "tok") (.bearer "tok") sampleCloneLink.href
    sampleRepoInfo rfl rfl rfl (by decide) (by decide) rfl rfl rfl rfl

end BitbucketServer
